import Mathlib

/-
Shallow embedding of pseyepy (src/pseyepy/cameras.pyx): a control-plane and
frame-acquisition layer over the PS3EYE native driver.  The driver itself
(ps3eye_capi.h) is external and is modelled as an abstract parameter: a
connected-device count, a per-device open-success oracle, a current parameter
store, and a set-effect function describing how the firmware responds to a
set-parameter request.  All low-level calls issued by the core are recorded in
an explicit trace.
-/

namespace Pseyepy

/-- Parameter identifiers from ps3eye_capi.h (ps3eye_parameter enum). -/
inductive Ps3Param where
  | AUTO_GAIN
  | GAIN
  | AUTO_WHITEBALANCE
  | AUTO_EXPOSURE
  | EXPOSURE
  | SHARPNESS
  | CONTRAST
  | BRIGHTNESS
  | HUE
  | REDBALANCE
  | BLUEBALANCE
  | GREENBALANCE
  | HFLIP
  | VFLIP
  deriving DecidableEq, Repr

/-- Output formats from ps3eye_capi.h (ps3eye_format enum). -/
inductive Ps3Format where
  | BAYER
  | RGB
  | BGR
  deriving DecidableEq, Repr

/-- Python values that occur in control domains and in writes: booleans and
integers.  Both kinds appear because the registry mixes [True, False] domains
with integer ranges, and callers may write either. -/
inductive PyVal where
  | pbool : Bool → PyVal
  | pint : Int → PyVal
  deriving DecidableEq, Repr

/-- The integer a Python bool/int coerces to (True is 1, False is 0); also the
C int passed to ps3eye_set_parameter. -/
def PyVal.toInt : PyVal → Int
  | .pbool b => if b then 1 else 0
  | .pint n => n

/-- Python equality restricted to bool/int values: True == 1 and False == 0,
because bool is a subclass of int in Python. -/
def pyEq (a b : PyVal) : Bool := a.toInt == b.toInt

/-- Python membership test (the `in` operator) on a list, using Python
equality. -/
def pyMem (v : PyVal) (l : List PyVal) : Bool := l.any (fun x => pyEq x v)

/-- The domain [True, False] used by the boolean-valued controls. -/
def boolDomain : List PyVal := [.pbool true, .pbool false]

/-- Python list(range(n)) as a list of PyVal integers. -/
def intRange (n : Nat) : List PyVal := (List.range n).map (fun i => .pint (Int.ofNat i))

/-- Camera._PARAMS: the parameter registry, in source (dict insertion) order.
Each entry maps a parameter id to its display name and its list of accepted
values.  PS3EYE_AUTO_EXPOSURE is commented out in the source and so absent. -/
def _PARAMS : List (Ps3Param × String × List PyVal) :=
  [ (.AUTO_GAIN,        ("auto_gain",         boolDomain)),
    (.AUTO_WHITEBALANCE,("auto_whitebalance", boolDomain)),
    (.GAIN,             ("gain",              intRange 64)),
    (.EXPOSURE,         ("exposure",          intRange 256)),
    (.SHARPNESS,        ("sharpness",         intRange 64)),
    (.CONTRAST,         ("contrast",          intRange 256)),
    (.BRIGHTNESS,       ("brightness",        intRange 256)),
    (.HUE,              ("hue",               intRange 256)),
    (.REDBALANCE,       ("red_balance",       intRange 256)),
    (.BLUEBALANCE,      ("blue_balance",      intRange 256)),
    (.GREENBALANCE,     ("green_balance",     intRange 256)),
    (.HFLIP,            ("hflip",             boolDomain)),
    (.VFLIP,            ("vflip",             boolDomain)) ]

/-- The dict lookup Camera._PARAMS[param_id] performed by CtrlList.__init__. -/
def paramsLookup (p : Ps3Param) : Option (String × List PyVal) :=
  (_PARAMS.find? (fun e => decide (e.1 = p))).map (fun e => e.2)

/-- The driver-side parameter store: the current value of every parameter of
every device, as returned by ps3eye_get_parameter. -/
structure Hw where
  val : Nat → Ps3Param → Int

/-- Abstract model of the external driver: how many devices are connected,
whether ps3eye_open succeeds for a device, and how the firmware responds to a
set-parameter request (given device, parameter, requested value and old stored
value, the value the store ends up holding; firmware may silently reject). -/
structure DriverModel where
  count : Nat
  openOk : Nat → Bool
  setEffect : Nat → Ps3Param → Int → Int → Int

/-- Effect of ps3eye_set_parameter(id, p, v) on the driver parameter store. -/
def hwSet (dm : DriverModel) (hw : Hw) (id : Nat) (p : Ps3Param) (v : Int) : Hw :=
  ⟨fun i q => if i = id ∧ q = p then dm.setEffect id p v (hw.val id p) else hw.val i q⟩

/-- One low-level driver call, as recorded in a trace. -/
inductive DriverCall where
  | init
  | uninit
  | countConnected
  | openDev (id w h fps : Nat) (fmt : Ps3Format)
  | closeDev (id : Nat)
  | grabFrame (id : Nat)
  | getParam (id : Nat) (p : Ps3Param)
  | setParam (id : Nat) (p : Ps3Param) (v : Int)
  deriving DecidableEq, Repr

/-- The CtrlList state: parameter id, display name, accepted values (nm and
valid come from the Camera._PARAMS lookup in __init__), and the per-slot
stored values (the underlying Python list contents). -/
structure CtrlList where
  param_id : Ps3Param
  nm : String
  valid : List PyVal
  vals : List PyVal
  deriving DecidableEq, Repr

/-- The CtrlList built by Camera.__init__ for registry entry (p, nm, valid):
its list contents are [ps3eye_get_parameter(i, p) for i in ids].  (nm, valid)
is what the Camera._PARAMS[p] lookup in CtrlList.__init__ returns, since the
entry comes from iterating that same dict. -/
def mkCtrlList (hw : Hw) (ids : List Nat) (p : Ps3Param) (nm : String)
    (valid : List PyVal) : CtrlList :=
  { param_id := p, nm := nm, valid := valid,
    vals := ids.map (fun i => .pint (hw.val i p)) }

/-- Result of CtrlList.__setitem__: the list afterwards, the driver parameter
store afterwards, whether warnings.warn was called, and the low-level calls
issued.  The function is total: __setitem__ never raises. -/
structure SetItemResult where
  ctrl : CtrlList
  hw : Hw
  warned : Bool
  trace : List DriverCall

/-- CtrlList.__setitem__(pos, val): reject values outside self.valid with a
warning and no hardware call; otherwise call ps3eye_set_parameter(pos, ...),
read back with ps3eye_get_parameter(pos, ...), warn and keep the old slot if
the read-back differs from val, and store val into slot pos if it matches.
Note the hardware calls use pos, the raw slot position, directly. -/
def CtrlList.setitem (c : CtrlList) (dm : DriverModel) (hw : Hw) (pos : Nat)
    (val : PyVal) : SetItemResult :=
  if pyMem val c.valid = false then
    { ctrl := c, hw := hw, warned := true, trace := [] }
  else
    let hw' := hwSet dm hw pos c.param_id val.toInt
    let conf := hw'.val pos c.param_id
    let tr := [DriverCall.setParam pos c.param_id val.toInt,
               DriverCall.getParam pos c.param_id]
    if conf = val.toInt then
      { ctrl := { c with vals := c.vals.set pos val }, hw := hw',
        warned := false, trace := tr }
    else
      { ctrl := c, hw := hw', warned := true, trace := tr }

/-- The buffers dict: id to buffer size in bytes, in insertion order. -/
def dictInsert (d : List (Nat × Nat)) (k v : Nat) : List (Nat × Nat) :=
  match d with
  | [] => [(k, v)]
  | (k', v') :: rest =>
      if k' = k then (k, v) :: rest else (k', v') :: dictInsert rest k v

/-- Dict lookup (buffers[_id]); none models a KeyError. -/
def dictGet (d : List (Nat × Nat)) (k : Nat) : Option Nat :=
  match d with
  | [] => none
  | (k', v') :: rest => if k' = k then some v' else dictGet rest k

/-- Errors raised by Camera.__init__.  noCameraAt is the configuration error
(requested index not below the connected count, carrying both numbers exactly
as the message does); openFailed is the device-open error; keyError models the
KeyError from self._RESOLUTION[resolution] on an unknown resolution key. -/
inductive CamError where
  | noCameraAt (idx avail : Nat)
  | openFailed (idx : Nat)
  | keyError (resolution : Nat)
  deriving DecidableEq, Repr

def RES_SMALL : Nat := 0

def RES_LARGE : Nat := 1

/-- Camera._RESOLUTION: resolution key to (width, height). -/
def _RESOLUTION (r : Nat) : Option (Nat × Nat) :=
  if r = RES_SMALL then some (320, 240)
  else if r = RES_LARGE then some (640, 480)
  else none

/-- Session state after a successful Camera.__init__ (the attributes the
later methods use). -/
structure Session where
  ids : List Nat
  w : Nat
  h : Nat
  fps : Nat
  depth : Nat
  format : Ps3Format
  buffers : List (Nat × Nat)
  ctrls : List CtrlList
  _ended : Bool
  deriving Repr

/-- The per-id loop of Camera.__init__: check the id against the connected
count (on failure call ps3eye_uninit then raise the configuration error), call
ps3eye_open (on failure raise the device-open error, without uninit), and
allocate the buffer, keyed by id, of w*h*depth bytes. -/
def openLoop (dm : DriverModel) (w h fps : Nat) (fmt : Ps3Format) (count depth : Nat) :
    List Nat → List (Nat × Nat) → List DriverCall →
    Except CamError (List (Nat × Nat)) × List DriverCall
  | [], bufs, tr => (Except.ok bufs, tr)
  | id :: rest, bufs, tr =>
      if count ≤ id then
        (Except.error (CamError.noCameraAt id count), tr ++ [DriverCall.uninit])
      else if dm.openOk id = false then
        (Except.error (CamError.openFailed id), tr ++ [DriverCall.openDev id w h fps fmt])
      else
        openLoop dm w h fps fmt count depth rest
          (dictInsert bufs id (w * h * depth))
          (tr ++ [DriverCall.openDev id w h fps fmt])

/-- Camera.__init__(ids, resolution, fps, color): resolve the resolution,
fix format RGB and depth 3 (greyscale is declared but not implemented: the
color flag does not change either), call ps3eye_init, query the connected
count, run the open loop, then build one CtrlList per _PARAMS entry seeded by
ps3eye_get_parameter per id.  Returns the session (or the raised error) and
the trace of driver calls issued. -/
def camInit (dm : DriverModel) (hw : Hw) (ids : List Nat) (resolution fps : Nat)
    (color : Bool) : Except CamError Session × List DriverCall :=
  match _RESOLUTION resolution with
  | none => (Except.error (CamError.keyError resolution), [])
  | some (w, h) =>
      let fmt := Ps3Format.RGB
      let depth := 3
      let tr0 := [DriverCall.init, DriverCall.countConnected]
      match openLoop dm w h fps fmt dm.count depth ids [] tr0 with
      | (Except.error e, tr) => (Except.error e, tr)
      | (Except.ok bufs, tr) =>
          (Except.ok { ids := ids, w := w, h := h, fps := fps, depth := depth,
                       format := fmt, buffers := bufs,
                       ctrls := _PARAMS.map (fun e => mkCtrlList hw ids e.1 e.2.1 e.2.2),
                       _ended := false },
           tr ++ _PARAMS.flatMap (fun e => ids.map (fun i => DriverCall.getParam i e.1)))

/-- An image view returned by Camera.read: a view over the named device's
buffer, reshaped to the given dimensions. -/
structure ImgView where
  dev : Nat
  shape : List Nat
  deriving DecidableEq, Repr

/-- numpy reshape of a flat buffer of len elements: succeeds exactly when the
shape's element product equals len. -/
def npReshape (len : Nat) (shape : List Nat) : Option (List Nat) :=
  if shape.foldl (fun a b => a * b) 1 = len then some shape else none

/-- The per-id loop of Camera.read: look up the device's buffer and reshape a
view of it to [h, w, depth]; none models the error paths (missing buffer key,
reshape size mismatch). -/
def readLoop (s : Session) : List Nat → Option (List ImgView)
  | [] => some []
  | i :: rest =>
      (dictGet s.buffers i).bind (fun sz =>
        (npReshape sz [s.h, s.w, s.depth]).bind (fun sh =>
          (readLoop s rest).map (fun l => ImgView.mk i sh :: l)))

/-- Camera.read(): grab one frame per managed device, in self.ids order, and
return the list of per-device views, plus the trace of grab calls. -/
def camRead (s : Session) : Option (List ImgView) × List DriverCall :=
  (readLoop s s.ids, s.ids.map DriverCall.grabFrame)

/-- Camera.end(): if not already ended, close every device in self.ids order,
uninit the driver context, and mark the session ended; otherwise do nothing. -/
def camEnd (s : Session) : Session × List DriverCall :=
  if s._ended then (s, [])
  else ({ s with _ended := true },
        s.ids.map DriverCall.closeDev ++ [DriverCall.uninit])

/-- A driver model used for concrete runs: singleDev has one connected camera,
every open succeeds, and the firmware accepts every set-parameter request. -/
def singleDev : DriverModel :=
  { count := 1, openOk := fun _ => true, setEffect := fun _ _ v _ => v }

/-- A driver model with two connected cameras, accepting everything. -/
def twoDev : DriverModel :=
  { count := 2, openOk := fun _ => true, setEffect := fun _ _ v _ => v }

/-- A parameter store in which every parameter of every device reads 0. -/
def hwZero : Hw := ⟨fun _ _ => 0⟩

/-- A driver model whose firmware silently rejects every set-parameter request
(the stored value never changes), as PS3EYE firmware occasionally does. -/
def stubbornDev : DriverModel :=
  { count := 1, openOk := fun _ => true, setEffect := fun _ _ _ old => old }

/-- A concrete open one-device session for exercising camEnd. -/
def sess0 : Session :=
  { ids := [0], w := 320, h := 240, fps := 60, depth := 3,
    format := Ps3Format.RGB, buffers := [(0, 230400)], ctrls := [],
    _ended := false }

/-! Helper lemmas about the buffers dict and the open loop. -/

theorem dictInsert_of_not_mem (d : List (Nat × Nat)) (k v : Nat)
    (h : k ∉ d.map Prod.fst) : dictInsert d k v = d ++ [(k, v)] := by
  induction d with
  | nil => rfl
  | cons e rest ih =>
      obtain ⟨k', v'⟩ := e
      simp only [List.map_cons, List.mem_cons] at h
      push_neg at h
      simp [dictInsert, Ne.symm h.1, ih h.2]

theorem dictInsert_vals (d : List (Nat × Nat)) (k sz : Nat)
    (h : ∀ e ∈ d, e.2 = sz) : ∀ e ∈ dictInsert d k sz, e.2 = sz := by
  induction d with
  | nil => simp [dictInsert]
  | cons e rest ih =>
      obtain ⟨k', v'⟩ := e
      by_cases hk : k' = k
      · simpa [dictInsert, hk] using fun e he => h e (List.mem_cons_of_mem _ he)
      · have h1 : v' = sz := h (k', v') (List.mem_cons_self _ _)
        have h2 : ∀ e ∈ rest, e.2 = sz := fun e he => h e (List.mem_cons_of_mem _ he)
        simpa [dictInsert, hk, h1] using ih h2

theorem mem_keys_dictInsert_self (d : List (Nat × Nat)) (k v : Nat) :
    k ∈ (dictInsert d k v).map Prod.fst := by
  induction d with
  | nil => simp [dictInsert]
  | cons e rest ih =>
      obtain ⟨k', v'⟩ := e
      by_cases hk : k' = k
      · simp [dictInsert, hk]
      · simp only [dictInsert, if_neg hk, List.map_cons, List.mem_cons]
        exact Or.inr ih

theorem mem_keys_dictInsert_of_mem (d : List (Nat × Nat)) (k v i : Nat)
    (h : i ∈ d.map Prod.fst) : i ∈ (dictInsert d k v).map Prod.fst := by
  induction d with
  | nil => simp at h
  | cons e rest ih =>
      obtain ⟨k', v'⟩ := e
      simp only [List.map_cons, List.mem_cons] at h
      by_cases hk : k' = k
      · rcases h with h | h
        · simp [dictInsert, hk, h.symm ▸ hk.symm]
        · simp only [dictInsert, if_pos hk, List.map_cons, List.mem_cons]
          exact Or.inr h
      · rcases h with h | h
        · simp [dictInsert, hk, h]
        · simp only [dictInsert, if_neg hk, List.map_cons, List.mem_cons]
          exact Or.inr (ih h)

theorem dictGet_of_vals (d : List (Nat × Nat)) (sz i : Nat)
    (hvals : ∀ e ∈ d, e.2 = sz) (hmem : i ∈ d.map Prod.fst) :
    dictGet d i = some sz := by
  induction d with
  | nil => simp at hmem
  | cons e rest ih =>
      obtain ⟨k', v'⟩ := e
      simp only [List.map_cons, List.mem_cons] at hmem
      by_cases hk : k' = i
      · have : v' = sz := hvals (k', v') (List.mem_cons_self _ _)
        simp [dictGet, hk, this]
      · have hmem' : i ∈ rest.map Prod.fst := by
          rcases hmem with hmem | hmem
          · exact absurd hmem.symm hk
          · exact hmem
        have hvals' : ∀ e ∈ rest, e.2 = sz := fun e he => hvals e (List.mem_cons_of_mem _ he)
        simpa [dictGet, hk] using ih hvals' hmem'

/-- When every requested id is below the connected count and opens
successfully, the open loop returns ok, issues exactly one open call per id in
order, gives every buffer size w*h*depth, keys every id, and (for duplicate-free
fresh ids) appends exactly one buffer entry per id in order. -/
theorem openLoop_ok (dm : DriverModel) (w h fps : Nat) (fmt : Ps3Format) (depth : Nat) :
    ∀ (ids : List Nat) (bufs : List (Nat × Nat)) (tr : List DriverCall),
    (∀ i ∈ ids, i < dm.count ∧ dm.openOk i = true) →
    ∃ bufs',
      openLoop dm w h fps fmt dm.count depth ids bufs tr =
        (Except.ok bufs', tr ++ ids.map (fun i => DriverCall.openDev i w h fps fmt)) ∧
      ((∀ e ∈ bufs, e.2 = w * h * depth) → ∀ e ∈ bufs', e.2 = w * h * depth) ∧
      (∀ i ∈ ids, i ∈ bufs'.map Prod.fst) ∧
      (∀ i ∈ bufs.map Prod.fst, i ∈ bufs'.map Prod.fst) ∧
      (ids.Nodup → (∀ i ∈ ids, i ∉ bufs.map Prod.fst) →
        bufs' = bufs ++ ids.map (fun i => (i, w * h * depth))) := by
  intro ids
  induction ids with
  | nil =>
      intro bufs tr _
      exact ⟨bufs, by simp [openLoop], fun hb => hb, by simp, fun i hi => hi, by simp⟩
  | cons id rest ih =>
      intro bufs tr hvalid
      have hid := hvalid id (List.mem_cons_self _ _)
      have hrest : ∀ i ∈ rest, i < dm.count ∧ dm.openOk i = true :=
        fun i hi => hvalid i (List.mem_cons_of_mem _ hi)
      obtain ⟨bufs', heq, hvals, hkeys, hmono, hnodup⟩ :=
        ih (dictInsert bufs id (w * h * depth))
           (tr ++ [DriverCall.openDev id w h fps fmt]) hrest
      refine ⟨bufs', ?_, ?_, ?_, ?_, ?_⟩
      · rw [openLoop, if_neg (Nat.not_le.mpr hid.1)]
        simp only [hid.2]
        simpa using heq
      · intro hb
        exact hvals (dictInsert_vals bufs id (w * h * depth) hb)
      · intro i hi
        rcases List.mem_cons.mp hi with hi | hi
        · exact hi ▸ hmono id (mem_keys_dictInsert_self bufs id _)
        · exact hkeys i hi
      · intro i hi
        exact hmono i (mem_keys_dictInsert_of_mem bufs id _ i hi)
      · intro hnd hfresh
        have hid_fresh : id ∉ bufs.map Prod.fst := hfresh id (List.mem_cons_self _ _)
        have hins : dictInsert bufs id (w * h * depth) = bufs ++ [(id, w * h * depth)] :=
          dictInsert_of_not_mem bufs id _ hid_fresh
        have hnd' := List.nodup_cons.mp hnd
        have hfresh' : ∀ i ∈ rest, i ∉ (dictInsert bufs id (w * h * depth)).map Prod.fst := by
          intro i hi
          rw [hins]
          simp only [List.map_append, List.mem_append, List.map_cons, List.map_nil,
            List.mem_cons, List.not_mem_nil]
          push_neg
          refine ⟨fun hmemb => hfresh i (List.mem_cons_of_mem _ hi) hmemb, ?_, fun hf => hf⟩
          intro hieq
          exact hnd'.1 (hieq ▸ hi)
        rw [hnodup hnd'.2 hfresh', hins]
        simp

/-- When every id before the first too-large id is valid and opens
successfully, the open loop raises the configuration error naming that id and
the count, having issued one open call per earlier id and then uninit. -/
theorem openLoop_err (dm : DriverModel) (w h fps : Nat) (fmt : Ps3Format) (depth : Nat)
    (bad : Nat) (post : List Nat) (hbad : dm.count ≤ bad) :
    ∀ (pre : List Nat) (bufs : List (Nat × Nat)) (tr : List DriverCall),
    (∀ i ∈ pre, i < dm.count ∧ dm.openOk i = true) →
    openLoop dm w h fps fmt dm.count depth (pre ++ bad :: post) bufs tr =
      (Except.error (CamError.noCameraAt bad dm.count),
       tr ++ pre.map (fun i => DriverCall.openDev i w h fps fmt) ++ [DriverCall.uninit]) := by
  intro pre
  induction pre with
  | nil =>
      intro bufs tr _
      simp [openLoop, hbad]
  | cons id rest ih =>
      intro bufs tr hvalid
      have hid := hvalid id (List.mem_cons_self _ _)
      have hrest : ∀ i ∈ rest, i < dm.count ∧ dm.openOk i = true :=
        fun i hi => hvalid i (List.mem_cons_of_mem _ hi)
      rw [List.cons_append, openLoop, if_neg (Nat.not_le.mpr hid.1)]
      simp only [hid.2]
      rw [ih _ _ hrest]
      simp

/-- Successful construction: with a known resolution and all ids valid and
opening successfully, Camera.__init__ returns a session whose fields are as
built, with one CtrlList per registry entry, every buffer sized w*h*3, every
id present as a buffer key, and (for duplicate-free ids) exactly one buffer
per id in id order. -/
theorem camInit_ok (dm : DriverModel) (hw : Hw) (ids : List Nat) (res fps : Nat)
    (color : Bool) (w h : Nat)
    (hres : _RESOLUTION res = some (w, h))
    (hvalid : ∀ i ∈ ids, i < dm.count ∧ dm.openOk i = true) :
    ∃ s tr, camInit dm hw ids res fps color = (Except.ok s, tr) ∧
      s.ids = ids ∧ s.w = w ∧ s.h = h ∧ s.fps = fps ∧ s.depth = 3 ∧
      s.format = Ps3Format.RGB ∧ s._ended = false ∧
      s.ctrls = _PARAMS.map (fun e => mkCtrlList hw ids e.1 e.2.1 e.2.2) ∧
      (∀ e ∈ s.buffers, e.2 = w * h * 3) ∧
      (∀ i ∈ ids, i ∈ s.buffers.map Prod.fst) ∧
      (ids.Nodup → s.buffers = ids.map (fun i => (i, w * h * 3))) := by
  obtain ⟨bufs', heq, hvals, hkeys, _, hnodup⟩ :=
    openLoop_ok dm w h fps Ps3Format.RGB 3 ids []
      [DriverCall.init, DriverCall.countConnected] hvalid
  refine ⟨{ ids := ids, w := w, h := h, fps := fps, depth := 3,
            format := Ps3Format.RGB, buffers := bufs',
            ctrls := _PARAMS.map (fun e => mkCtrlList hw ids e.1 e.2.1 e.2.2),
            _ended := false },
          ([DriverCall.init, DriverCall.countConnected] ++
            ids.map (fun i => DriverCall.openDev i w h fps Ps3Format.RGB)) ++
            _PARAMS.flatMap (fun e => ids.map (fun i => DriverCall.getParam i e.1)),
          ?_, rfl, rfl, rfl, rfl, rfl, rfl, rfl, rfl,
          hvals (by simp), hkeys, fun hnd => by simpa using hnodup hnd (by simp)⟩
  rw [camInit, hres]
  simp only [heq]

/-- When every id of the remaining list has a buffer of exactly h*w*depth
elements, the read loop produces one [h, w, depth]-shaped view per id, in
order. -/
theorem readLoop_ok (s : Session) :
    ∀ l : List Nat,
    (∀ i ∈ l, dictGet s.buffers i = some (s.w * s.h * s.depth)) →
    readLoop s l = some (l.map (fun i => ImgView.mk i [s.h, s.w, s.depth])) := by
  intro l
  induction l with
  | nil => intro _; rfl
  | cons i rest ih =>
      intro hbuf
      have hi := hbuf i (List.mem_cons_self _ _)
      have hrest := fun j hj => hbuf j (List.mem_cons_of_mem _ hj)
      have hsz : npReshape (s.w * s.h * s.depth) [s.h, s.w, s.depth] =
          some [s.h, s.w, s.depth] := by
        simp [npReshape, Nat.mul_comm s.w s.h]
      simp [readLoop, hi, hsz, ih hrest]

/-! Claim theorems. -/

/-- C3: for every control, slot and in-domain value, if the post-write
read-back differs from the value the write warns and leaves every stored slot
at its pre-write value (setitem is total, so nothing is raised); if the
read-back equals the value, exactly that value is committed into the slot. -/
theorem c3_write_then_verify (c : CtrlList) (dm : DriverModel) (hw : Hw)
    (pos : Nat) (val : PyVal) (hmem : pyMem val c.valid = true) :
    ((hwSet dm hw pos c.param_id val.toInt).val pos c.param_id ≠ val.toInt →
      (c.setitem dm hw pos val).warned = true ∧
      (c.setitem dm hw pos val).ctrl = c) ∧
    ((hwSet dm hw pos c.param_id val.toInt).val pos c.param_id = val.toInt →
      (c.setitem dm hw pos val).warned = false ∧
      (c.setitem dm hw pos val).ctrl.vals = c.vals.set pos val) := by
  constructor <;> intro hconf <;> simp [CtrlList.setitem, hmem, hconf]

/-- Witness for c3_write_then_verify: auto_gain channel of a one-device
session, write True, firmware silently keeps the old value 0. -/
theorem c3_witness :
    pyMem (PyVal.pbool true)
      (mkCtrlList hwZero [0] Ps3Param.AUTO_GAIN "auto_gain" boolDomain).valid = true ∧
    (((hwSet stubbornDev hwZero 0
        (mkCtrlList hwZero [0] Ps3Param.AUTO_GAIN "auto_gain" boolDomain).param_id
        (PyVal.pbool true).toInt).val 0
        (mkCtrlList hwZero [0] Ps3Param.AUTO_GAIN "auto_gain" boolDomain).param_id ≠
          (PyVal.pbool true).toInt →
      ((mkCtrlList hwZero [0] Ps3Param.AUTO_GAIN "auto_gain" boolDomain).setitem
          stubbornDev hwZero 0 (PyVal.pbool true)).warned = true ∧
      ((mkCtrlList hwZero [0] Ps3Param.AUTO_GAIN "auto_gain" boolDomain).setitem
          stubbornDev hwZero 0 (PyVal.pbool true)).ctrl =
        mkCtrlList hwZero [0] Ps3Param.AUTO_GAIN "auto_gain" boolDomain) ∧
     ((hwSet stubbornDev hwZero 0
        (mkCtrlList hwZero [0] Ps3Param.AUTO_GAIN "auto_gain" boolDomain).param_id
        (PyVal.pbool true).toInt).val 0
        (mkCtrlList hwZero [0] Ps3Param.AUTO_GAIN "auto_gain" boolDomain).param_id =
          (PyVal.pbool true).toInt →
      ((mkCtrlList hwZero [0] Ps3Param.AUTO_GAIN "auto_gain" boolDomain).setitem
          stubbornDev hwZero 0 (PyVal.pbool true)).warned = false ∧
      ((mkCtrlList hwZero [0] Ps3Param.AUTO_GAIN "auto_gain" boolDomain).setitem
          stubbornDev hwZero 0 (PyVal.pbool true)).ctrl.vals =
        (mkCtrlList hwZero [0] Ps3Param.AUTO_GAIN "auto_gain" boolDomain).vals.set 0
          (PyVal.pbool true))) :=
  ⟨by decide,
   c3_write_then_verify (mkCtrlList hwZero [0] Ps3Param.AUTO_GAIN "auto_gain" boolDomain)
     stubbornDev hwZero 0 (PyVal.pbool true) (by decide)⟩

/-- C4: for every control, slot and out-of-domain value, the write warns,
issues no low-level call at all (in particular no set-parameter), leaves the
stored slots and the parameter store unchanged, and (being total) raises
nothing. -/
theorem c4_out_of_domain_write_rejected (c : CtrlList) (dm : DriverModel)
    (hw : Hw) (pos : Nat) (val : PyVal) (hmem : pyMem val c.valid = false) :
    (c.setitem dm hw pos val).warned = true ∧
    (c.setitem dm hw pos val).ctrl = c ∧
    (c.setitem dm hw pos val).trace = [] ∧
    (c.setitem dm hw pos val).hw = hw := by
  simp [CtrlList.setitem, hmem]

/-- Witness for c4_out_of_domain_write_rejected: writing 5 to auto_gain,
whose domain is [True, False]. -/
theorem c4_witness :
    pyMem (PyVal.pint 5)
      (mkCtrlList hwZero [0] Ps3Param.AUTO_GAIN "auto_gain" boolDomain).valid = false ∧
    (((mkCtrlList hwZero [0] Ps3Param.AUTO_GAIN "auto_gain" boolDomain).setitem
        singleDev hwZero 0 (PyVal.pint 5)).warned = true ∧
     ((mkCtrlList hwZero [0] Ps3Param.AUTO_GAIN "auto_gain" boolDomain).setitem
        singleDev hwZero 0 (PyVal.pint 5)).ctrl =
       mkCtrlList hwZero [0] Ps3Param.AUTO_GAIN "auto_gain" boolDomain ∧
     ((mkCtrlList hwZero [0] Ps3Param.AUTO_GAIN "auto_gain" boolDomain).setitem
        singleDev hwZero 0 (PyVal.pint 5)).trace = [] ∧
     ((mkCtrlList hwZero [0] Ps3Param.AUTO_GAIN "auto_gain" boolDomain).setitem
        singleDev hwZero 0 (PyVal.pint 5)).hw = hwZero) :=
  ⟨by decide,
   c4_out_of_domain_write_rejected
     (mkCtrlList hwZero [0] Ps3Param.AUTO_GAIN "auto_gain" boolDomain)
     singleDev hwZero 0 (PyVal.pint 5) (by decide)⟩

/-- C7: Camera.end is idempotent: the first call on an open session issues one
close per managed device, in order, followed by one uninit, and marks the
session ended; the second call changes nothing and issues no calls. -/
theorem c7_end_idempotent (s : Session) (h : s._ended = false) :
    (camEnd s).2 = s.ids.map DriverCall.closeDev ++ [DriverCall.uninit] ∧
    (camEnd s).1._ended = true ∧
    (camEnd (camEnd s).1).2 = [] ∧
    (camEnd (camEnd s).1).1 = (camEnd s).1 := by
  simp [camEnd, h]

/-- Witness for c7_end_idempotent at a concrete open session. -/
theorem c7_witness :
    sess0._ended = false ∧
    ((camEnd sess0).2 = sess0.ids.map DriverCall.closeDev ++ [DriverCall.uninit] ∧
     (camEnd sess0).1._ended = true ∧
     (camEnd (camEnd sess0).1).2 = [] ∧
     (camEnd (camEnd sess0).1).1 = (camEnd sess0).1) :=
  ⟨rfl, c7_end_idempotent sess0 rfl⟩

/-- C9 counterexample: the parameter registry does not have 12 entries (the
names the claim itself lists are 13: the source dict has 13 rows). -/
theorem c9_counterexample : ¬ _PARAMS.length = 12 := by decide

/-- C9 amended: the registry has exactly 13 entries, named auto_gain,
auto_whitebalance, gain, exposure, sharpness, contrast, brightness, hue,
red/blue/green balance and hflip/vflip, and auto-exposure is excluded. -/
theorem c9_registry_13_entries :
    _PARAMS.length = 13 ∧
    _PARAMS.map (fun e => e.2.1) =
      ["auto_gain", "auto_whitebalance", "gain", "exposure", "sharpness",
       "contrast", "brightness", "hue", "red_balance", "blue_balance",
       "green_balance", "hflip", "vflip"] ∧
    (∀ e ∈ _PARAMS, e.1 ≠ Ps3Param.AUTO_EXPOSURE) :=
  ⟨by decide, by rfl, by decide⟩

/-- C2 is right about the spec but wrong about the code: the accepted write
below is made on the auto_gain channel of a session whose device list is [1]
(the channel was seeded from device 1, as the vals field shows), yet both
low-level calls target device 0 — the raw slot position — although the device
at position 0 of the session list is 1, not 0. -/
theorem c2_setitem_targets_raw_position :
    ((mkCtrlList hwZero [1] Ps3Param.AUTO_GAIN "auto_gain" boolDomain).setitem
        twoDev hwZero 0 (PyVal.pbool true)).trace =
      [DriverCall.setParam 0 Ps3Param.AUTO_GAIN 1,
       DriverCall.getParam 0 Ps3Param.AUTO_GAIN] ∧
    (mkCtrlList hwZero [1] Ps3Param.AUTO_GAIN "auto_gain" boolDomain).vals =
      [PyVal.pint (hwZero.val 1 Ps3Param.AUTO_GAIN)] ∧
    ([1] : List Nat)[0]? = some 1 ∧ (1 : Nat) ≠ 0 :=
  ⟨by decide, rfl, by decide, by decide⟩

/-- C10: the boolean-pair domain [True, False] also admits the integers 0 and
1 under the Python equality used by membership, for each of auto_gain,
auto_whitebalance, hflip and vflip (all of whose registry domains are that
pair), so a write of 0 or 1 proceeds to the hardware set-parameter call
instead of being rejected. -/
theorem c10_bool_domain_accepts_ints (v : PyVal)
    (hv : v = PyVal.pint 0 ∨ v = PyVal.pint 1) (p : Ps3Param)
    (hp : p = Ps3Param.AUTO_GAIN ∨ p = Ps3Param.AUTO_WHITEBALANCE ∨
          p = Ps3Param.HFLIP ∨ p = Ps3Param.VFLIP)
    (c : CtrlList) (dm : DriverModel) (hw : Hw) (pos : Nat)
    (hc : c.valid = boolDomain) :
    pyMem v boolDomain = true ∧
    (∃ nm, paramsLookup p = some (nm, boolDomain)) ∧
    (c.setitem dm hw pos v).trace.head? =
      some (DriverCall.setParam pos c.param_id v.toInt) := by
  have hm : pyMem v boolDomain = true := by rcases hv with rfl | rfl <;> decide
  have hcv : pyMem v c.valid = true := by rw [hc]; exact hm
  refine ⟨hm, ?_, ?_⟩
  · rcases hp with rfl | rfl | rfl | rfl
    · exact ⟨"auto_gain", by decide⟩
    · exact ⟨"auto_whitebalance", by decide⟩
    · exact ⟨"hflip", by decide⟩
    · exact ⟨"vflip", by decide⟩
  · unfold CtrlList.setitem
    rw [hcv]
    simp only [Bool.true_eq_false, if_false]
    split <;> rfl

/-- Witness for c10_bool_domain_accepts_ints: writing the integer 1 to an
auto_gain channel. -/
theorem c10_witness :
    (PyVal.pint 1 = PyVal.pint 0 ∨ PyVal.pint 1 = PyVal.pint 1) ∧
    (Ps3Param.AUTO_GAIN = Ps3Param.AUTO_GAIN ∨
     Ps3Param.AUTO_GAIN = Ps3Param.AUTO_WHITEBALANCE ∨
     Ps3Param.AUTO_GAIN = Ps3Param.HFLIP ∨
     Ps3Param.AUTO_GAIN = Ps3Param.VFLIP) ∧
    (mkCtrlList hwZero [0] Ps3Param.AUTO_GAIN "auto_gain" boolDomain).valid = boolDomain ∧
    (pyMem (PyVal.pint 1) boolDomain = true ∧
     (∃ nm, paramsLookup Ps3Param.AUTO_GAIN = some (nm, boolDomain)) ∧
     ((mkCtrlList hwZero [0] Ps3Param.AUTO_GAIN "auto_gain" boolDomain).setitem
         singleDev hwZero 0 (PyVal.pint 1)).trace.head? =
       some (DriverCall.setParam 0 Ps3Param.AUTO_GAIN 1)) :=
  ⟨Or.inr rfl, Or.inl rfl, rfl,
   c10_bool_domain_accepts_ints (PyVal.pint 1) (Or.inr rfl) Ps3Param.AUTO_GAIN
     (Or.inl rfl)
     (mkCtrlList hwZero [0] Ps3Param.AUTO_GAIN "auto_gain" boolDomain)
     singleDev hwZero 0 rfl⟩

/-- C1: opening N distinct valid device indices yields exactly N frame
buffers, one per device index in order, each sized width*height*3 bytes
(3 is the session's bytes per pixel). -/
theorem c1_init_allocates_buffers (dm : DriverModel) (hw : Hw) (ids : List Nat)
    (res fps : Nat) (color : Bool) (w h : Nat)
    (hres : _RESOLUTION res = some (w, h))
    (hvalid : ∀ i ∈ ids, i < dm.count ∧ dm.openOk i = true)
    (hnd : ids.Nodup) :
    ∃ s tr, camInit dm hw ids res fps color = (Except.ok s, tr) ∧
      s.buffers = ids.map (fun i => (i, w * h * 3)) ∧
      s.buffers.length = ids.length ∧
      ∀ e ∈ s.buffers, e.2 = w * h * 3 := by
  obtain ⟨s, tr, heq, _, _, _, _, _, _, _, _, hvals, _, hnodup⟩ :=
    camInit_ok dm hw ids res fps color w h hres hvalid
  exact ⟨s, tr, heq, hnodup hnd, by rw [hnodup hnd]; simp, hvals⟩

/-- Witness for c1_init_allocates_buffers: two devices at SMALL color, the
buffers are [(0, 230400), (1, 230400)]. -/
theorem c1_witness :
    _RESOLUTION 0 = some (320, 240) ∧
    (∀ i ∈ [0, 1], i < twoDev.count ∧ twoDev.openOk i = true) ∧
    ([0, 1] : List Nat).Nodup ∧
    (∃ s tr, camInit twoDev hwZero [0, 1] 0 60 true = (Except.ok s, tr) ∧
      s.buffers = ([0, 1] : List Nat).map (fun i => (i, 320 * 240 * 3)) ∧
      s.buffers.length = ([0, 1] : List Nat).length ∧
      ∀ e ∈ s.buffers, e.2 = 320 * 240 * 3) :=
  ⟨rfl, by decide, by decide,
   c1_init_allocates_buffers twoDev hwZero [0, 1] 0 60 true 320 240 rfl
     (by decide) (by decide)⟩

/-- C5 counterexample: with one connected device, opening [0, 1] raises the
configuration error for index 1 after the driver context is torn down, but a
device-open call for index 0 has already been issued, so construction with a
too-large index in the list does not always issue zero open calls. -/
theorem c5_counterexample :
    (camInit singleDev hwZero [0, 1] 0 60 true).1 =
      Except.error (CamError.noCameraAt 1 1) ∧
    DriverCall.openDev 0 320 240 60 Ps3Format.RGB ∈
      (camInit singleDev hwZero [0, 1] 0 60 true).2 :=
  ⟨rfl, by decide⟩

/-- C5 amended: when the first too-large index is preceded only by valid,
successfully-opening indices, construction fails with the configuration error
naming that index and the connected count, the driver context is uninitialized
before the error surfaces (uninit is the last call of the trace), and no
device-open call is issued for the offending index or anything after it —
exactly one open call per earlier valid index. -/
theorem c5_config_error (dm : DriverModel) (hw : Hw) (res fps : Nat)
    (color : Bool) (w h : Nat) (pre post : List Nat) (bad : Nat)
    (hres : _RESOLUTION res = some (w, h))
    (hpre : ∀ i ∈ pre, i < dm.count ∧ dm.openOk i = true)
    (hbad : dm.count ≤ bad) :
    camInit dm hw (pre ++ bad :: post) res fps color =
      (Except.error (CamError.noCameraAt bad dm.count),
       [DriverCall.init, DriverCall.countConnected] ++
         pre.map (fun i => DriverCall.openDev i w h fps Ps3Format.RGB) ++
         [DriverCall.uninit]) := by
  simp only [camInit, hres]
  simp only [openLoop_err dm w h fps Ps3Format.RGB 3 bad post hbad pre []
    [DriverCall.init, DriverCall.countConnected] hpre]

/-- Witness for c5_config_error: one connected device, requested list [0, 1]. -/
theorem c5_witness :
    _RESOLUTION 0 = some (320, 240) ∧
    (∀ i ∈ [0], i < singleDev.count ∧ singleDev.openOk i = true) ∧
    singleDev.count ≤ 1 ∧
    camInit singleDev hwZero ([0] ++ 1 :: []) 0 60 true =
      (Except.error (CamError.noCameraAt 1 singleDev.count),
       [DriverCall.init, DriverCall.countConnected] ++
         ([0] : List Nat).map (fun i => DriverCall.openDev i 320 240 60 Ps3Format.RGB) ++
         [DriverCall.uninit]) :=
  ⟨rfl, by decide, by decide,
   c5_config_error singleDev hwZero 0 60 true 320 240 [0] [] 1 rfl
     (by decide) (by decide)⟩

/-- C6: reading a successfully opened session returns exactly one view per
managed device, in device-list order, each a view over that device's buffer
shaped [height, width, 3]. -/
theorem c6_read_returns_views (dm : DriverModel) (hw : Hw) (ids : List Nat)
    (res fps : Nat) (color : Bool) (w h : Nat)
    (hres : _RESOLUTION res = some (w, h))
    (hvalid : ∀ i ∈ ids, i < dm.count ∧ dm.openOk i = true) :
    ∃ s tr, camInit dm hw ids res fps color = (Except.ok s, tr) ∧
      camRead s = (some (ids.map (fun i => ImgView.mk i [h, w, 3])),
                   ids.map DriverCall.grabFrame) ∧
      (ids.map (fun i => ImgView.mk i [h, w, 3])).length = ids.length := by
  obtain ⟨s, tr, heq, hids, hww, hhh, _, hdepth, _, _, _, hvals, hkeys, _⟩ :=
    camInit_ok dm hw ids res fps color w h hres hvalid
  refine ⟨s, tr, heq, ?_, by simp⟩
  have hbuf : ∀ i ∈ s.ids, dictGet s.buffers i = some (s.w * s.h * s.depth) := by
    intro i hi
    refine dictGet_of_vals s.buffers _ i ?_ (hkeys i (hids ▸ hi))
    intro e he
    rw [hww, hhh, hdepth]
    exact hvals e he
  unfold camRead
  rw [readLoop_ok s s.ids hbuf, hids, hww, hhh, hdepth]

/-- Witness for c6_read_returns_views: one device at SMALL color, one view
shaped [240, 320, 3]. -/
theorem c6_witness :
    _RESOLUTION 0 = some (320, 240) ∧
    (∀ i ∈ [0], i < singleDev.count ∧ singleDev.openOk i = true) ∧
    (∃ s tr, camInit singleDev hwZero [0] 0 60 true = (Except.ok s, tr) ∧
      camRead s = (some (([0] : List Nat).map (fun i => ImgView.mk i [240, 320, 3])),
                   ([0] : List Nat).map DriverCall.grabFrame) ∧
      (([0] : List Nat).map (fun i => ImgView.mk i [240, 320, 3])).length =
        ([0] : List Nat).length) :=
  ⟨rfl, by decide,
   c6_read_returns_views singleDev hwZero [0] 0 60 true 320 240 rfl (by decide)⟩

/-- C8: every control channel of a freshly constructed session has one slot
per device, seeded with exactly the driver's get-parameter value for that
device at construction time (no validation is applied to the seeds). -/
theorem c8_channels_seeded_from_hardware (dm : DriverModel) (hw : Hw)
    (ids : List Nat) (res fps : Nat) (color : Bool) (w h : Nat)
    (hres : _RESOLUTION res = some (w, h))
    (hvalid : ∀ i ∈ ids, i < dm.count ∧ dm.openOk i = true) :
    ∃ s tr, camInit dm hw ids res fps color = (Except.ok s, tr) ∧
      s.ctrls = _PARAMS.map (fun e => mkCtrlList hw ids e.1 e.2.1 e.2.2) ∧
      ∀ c ∈ s.ctrls, c.vals = ids.map (fun i => PyVal.pint (hw.val i c.param_id)) := by
  obtain ⟨s, tr, heq, _, _, _, _, _, _, _, hctrls, _, _, _⟩ :=
    camInit_ok dm hw ids res fps color w h hres hvalid
  refine ⟨s, tr, heq, hctrls, ?_⟩
  intro c hc
  rw [hctrls] at hc
  obtain ⟨e, _, rfl⟩ := List.mem_map.mp hc
  rfl

/-- Witness for c8_channels_seeded_from_hardware: one device, every channel
seeded with hwZero's value 0. -/
theorem c8_witness :
    _RESOLUTION 0 = some (320, 240) ∧
    (∀ i ∈ [0], i < singleDev.count ∧ singleDev.openOk i = true) ∧
    (∃ s tr, camInit singleDev hwZero [0] 0 60 true = (Except.ok s, tr) ∧
      s.ctrls = _PARAMS.map (fun e => mkCtrlList hwZero [0] e.1 e.2.1 e.2.2) ∧
      ∀ c ∈ s.ctrls,
        c.vals = ([0] : List Nat).map (fun i => PyVal.pint (hwZero.val i c.param_id))) :=
  ⟨rfl, by decide,
   c8_channels_seeded_from_hardware singleDev hwZero [0] 0 60 true 320 240 rfl
     (by decide)⟩

end Pseyepy
